import Mathlib

/-!
# Verification of the portal-tunnel orchestrator

Shallow embedding of the core of `gosuda/portal-tunnel` (files
`cmd/config.go` and `cmd/main.go`): relay-directory resolution,
display-name synthesis, the per-connection proxy, the per-service
tunnel session, and the multi-service supervisor, together with
theorems settling the specification's claims about them.
-/

namespace PortalTunnel

/-- Embedding of Go `strings.TrimSpace`: drop leading and trailing
whitespace characters.  (Go trims the Unicode class; the ASCII
whitespace characters covered by `Char.isWhitespace` are the ones that
occur in this program's inputs.) -/
def trimSpace (s : String) : String :=
  ⟨((s.data.dropWhile Char.isWhitespace).reverse.dropWhile Char.isWhitespace).reverse⟩

/-- `RelayConfig` from `cmd/config.go`: a named relay endpoint and its
bootstrap URLs. -/
structure RelayConfig where
  name : String
  urls : List String
deriving Repr, DecidableEq

/-- `RelayDirectory` from `cmd/config.go`: lookup structure over relay
definitions.  We keep the construction-order list; `lookup` reproduces
the Go map built by `NewRelayDirectory`, where a later relay with the
same name overwrites an earlier one. -/
structure RelayDirectory where
  relays : List RelayConfig
deriving Repr, DecidableEq

/-- Lookup in the directory map built by `NewRelayDirectory`
(`idx[relay.Name] = relay` for each relay in order, so the last
occurrence of a name wins). -/
def RelayDirectory.lookup (rd : RelayDirectory) (name : String) : Option RelayConfig :=
  rd.relays.reverse.find? (fun r => r.name == name)

/-- The two failure modes of `RelayDirectory.BootstrapServers`
(`cmd/config.go` lines 70-72 and 98-100). -/
inductive ResolveError where
  /-- "relayPreference must contain at least one relay name" -/
  | emptyPreferenceList
  /-- "no bootstrap servers resolved for relayPreference %v" -/
  | noBootstrapServers
deriving Repr, DecidableEq

/-- One step of the inner URL loop of `BootstrapServers`: the `seen`
set in the Go code always equals the set of URLs already appended to
`servers`, so the membership check is modelled directly on the
accumulator list. -/
def appendURL (servers : List String) (url : String) : List String :=
  let url := trimSpace url
  if url = "" then servers
  else if url ∈ servers then servers
  else servers ++ [url]

/-- The inner loop of `BootstrapServers` over one relay's URL list
(`cmd/config.go` lines 85-95). -/
def appendURLs (servers : List String) (urls : List String) : List String :=
  urls.foldl appendURL servers

/-- The outer loop of `BootstrapServers` over the preference list
(`cmd/config.go` lines 76-96). -/
def resolveLoop (rd : RelayDirectory) (preferences : List String) : List String :=
  preferences.foldl
    (fun servers relayName =>
      let relayName := trimSpace relayName
      if relayName = "" then servers
      else
        match rd.lookup relayName with
        | none => servers
        | some relay => appendURLs servers relay.urls)
    []

/-- `RelayDirectory.BootstrapServers` (`cmd/config.go` lines 69-103):
aggregates URLs for the given relay preference list; preference order
is preserved and duplicate URLs are removed. -/
def bootstrapServers (rd : RelayDirectory) (preferences : List String) :
    Except ResolveError (List String) :=
  if preferences.length = 0 then
    .error .emptyPreferenceList
  else
    let servers := resolveLoop rd preferences
    if servers.length = 0 then .error .noBootstrapServers
    else .ok servers

/-- The URLs one preference entry contributes to the stream
`BootstrapServers` walks: nothing when the trimmed name is empty or
unknown, otherwise the relay's URL list in order, trimmed, with empty
URLs dropped. -/
def relayContribution (rd : RelayDirectory) (p : String) : List String :=
  if trimSpace p = "" then []
  else
    match rd.lookup (trimSpace p) with
    | none => []
    | some relay => (relay.urls.map trimSpace).filter (fun u => u ≠ "")

/-- The full URL stream for a preference list, in encounter order. -/
def urlStream (rd : RelayDirectory) (preferences : List String) : List String :=
  preferences.flatMap (relayContribution rd)

/-- Append an element unless it is already present (one step of
first-seen-order deduplication). -/
def insert1 (acc : List String) (u : String) : List String :=
  if u ∈ acc then acc else acc ++ [u]

/-- First-seen-order deduplication: keep each element's first
occurrence, in order. -/
def stableDedup (l : List String) : List String :=
  l.foldl insert1 []

/-- Display-name synthesis from `runServiceTunnel`
(`cmd/main.go` lines 205, 211-216): trim the configured name; if blank,
synthesize `tunnel-` followed by `leaseID[:8]`.  The Go slice
`leaseID[:8]` panics when the lease id is shorter than 8, which is
modelled by `none`. -/
def displayName (name leaseID : String) : Option String :=
  let serviceName := trimSpace name
  if serviceName = "" then
    if 8 ≤ leaseID.length then some ("tunnel-" ++ leaseID.take 8)
    else none
  else some serviceName

/-- Observable outcome of one `proxyConnection` call
(`cmd/main.go` lines 165-201): how many times each side's `Close` was
invoked, the returned error, whether the two copy goroutines were
started, and whether the second copy goroutine was awaited (the final
`<-errCh` drain) before returning. -/
structure ProxyOutcome where
  relayCloses : Nat
  localCloses : Nat
  result : Option String
  copiesStarted : Bool
  secondDrained : Bool
deriving Repr, DecidableEq

/-- `proxyConnection` (`cmd/main.go` lines 165-201) as a function of
the scheduler-visible inputs: whether the cancellation context fires
before the proxy closes its stop channel (`cancelFires`), the result
of the local `net.Dial` (`dial`), and the results of the two copy
goroutines in the order they finish (`firstCopy`, `secondCopy` — the
error channel delivers them FIFO, so `err = <-errCh` receives
`firstCopy` and the drain receives `secondCopy`, whose value is
discarded).

Close accounting follows the Go control flow: `defer relayConn.Close()`
(line 166); on dial failure return the wrapped error with no copies
started (lines 168-171); `defer localConn.Close()` (line 172); the
watchdog goroutine closes both connections once more when `ctx.Done()`
wins the race against `stopCh` (lines 176-183); after the first copy
result arrives the proxy explicitly calls `relayConn.Close()`
(line 197), waits for the second copy (line 198) and returns the first
result (line 200), after which both deferred closes run. -/
def proxyConnection (localAddr : String) (cancelFires : Bool)
    (dial : Except String Unit) (firstCopy secondCopy : Option String) : ProxyOutcome :=
  match dial with
  | .error e =>
      { relayCloses := 1
        localCloses := 0
        result := some ("failed to connect to local service " ++ localAddr ++ ": " ++ e)
        copiesStarted := false
        secondDrained := false }
  | .ok _ =>
      let watchdog := if cancelFires then 1 else 0
      { relayCloses := 2 + watchdog
        localCloses := 1 + watchdog
        result := firstCopy
        copiesStarted := true
        secondDrained := true }

/-- `ServiceConfig` from `cmd/config.go`. -/
structure ServiceConfig where
  name : String
  relayPreference : List String
  target : String
  protocols : List String
deriving Repr, DecidableEq

/-- One observable event of a session's accept loop while the
cancellation context is still live: either `listener.Accept` returns a
connection (whose spawned proxy task finishes with `proxyErr`), or it
returns an error with the context not yet cancelled.  The event list
being exhausted models the cancellation signal arriving. -/
inductive SessionEvent where
  | accepted (proxyErr : Option String)
  | acceptFailed (e : String)
deriving Repr, DecidableEq

/-- Whether an event is a successfully accepted connection. -/
def SessionEvent.isAccepted : SessionEvent → Bool
  | .accepted _ => true
  | .acceptFailed _ => false

/-- The teardown actions a session performs when it returns, in
execution order.  The Go deferred calls run last-in-first-out:
`defer client.Close()` (line 229), `defer listener.Close()` (line 235)
and `defer connWG.Wait()` (line 252), so on return the session first
waits for in-flight proxy tasks, then closes the listener, then the
client. -/
inductive TeardownStep where
  | waitConns
  | closeListener
  | closeClient
deriving Repr, DecidableEq

/-- The accept loop of `runServiceTunnel` (`cmd/main.go` lines
253-282): each accepted connection increments the session's connection
counter and its proxy task logs its own error without touching the
session result; each accept failure with the context still live is
logged and the loop continues; when the context is cancelled (events
exhausted) the loop returns `nil`. -/
def acceptLoop (serviceName : String) :
    List SessionEvent → Nat → List String → Nat × List String
  | [], count, logs => (count, logs)
  | .accepted proxyErr :: rest, count, logs =>
      let logs :=
        match proxyErr with
        | some e => logs ++ ["service " ++ serviceName ++ ": Proxy error: " ++ e]
        | none => logs
      acceptLoop serviceName rest (count + 1) logs
  | .acceptFailed e :: rest, count, logs =>
      acceptLoop serviceName rest count
        (logs ++ ["service " ++ serviceName ++ ": Failed to accept connection: " ++ e])

/-- The error strings of `BootstrapServers` as surfaced into the
session's wrapped errors. -/
def ResolveError.message : ResolveError → String
  | .emptyPreferenceList => "relayPreference must contain at least one relay name"
  | .noBootstrapServers => "no bootstrap servers resolved for relayPreference"

/-- Observable outcome of one `runServiceTunnel` call: the session's
returned error, the error log entries it produced, the final
connection counter, whether the watchdog goroutine (lines 237-240)
closed the listener on cancellation, and the ordered teardown steps
performed on return. -/
structure SessionResult where
  result : Option String
  logs : List String
  connCount : Nat
  watchdogClosedListener : Bool
  teardown : List TeardownStep
deriving Repr, DecidableEq

/-- `runServiceTunnel` (`cmd/main.go` lines 203-283) as a function of
the scheduler-visible inputs: the relay directory, the service,
the lease id issued by `sdk.NewCredential`, the results of
`sdk.NewClient` (`connect`) and `client.Listen` (`listen`), and the
accept-loop schedule (`events`, exhausted when the context is
cancelled).  `none` models the Go panic of `leaseID[:8]` on a lease id
shorter than 8 bytes (line 214). -/
def runServiceTunnel (rd : RelayDirectory) (service : ServiceConfig) (leaseID : String)
    (connect : Except String Unit) (listen : Except String Unit)
    (events : List SessionEvent) : Option SessionResult :=
  let serviceName := trimSpace service.name
  match bootstrapServers rd service.relayPreference with
  | .error e =>
      some { result := some ("service " ++ serviceName ++ ": resolve relay servers: " ++ e.message)
             logs := []
             connCount := 0
             watchdogClosedListener := false
             teardown := [] }
  | .ok _bootstrap =>
      match displayName service.name leaseID with
      | none => none
      | some name =>
          match connect with
          | .error e =>
              some { result := some ("service " ++ name ++ ": failed to connect to relay: " ++ e)
                     logs := []
                     connCount := 0
                     watchdogClosedListener := false
                     teardown := [] }
          | .ok _ =>
              match listen with
              | .error e =>
                  some { result := some ("service " ++ name ++ ": failed to register service: " ++ e)
                         logs := []
                         connCount := 0
                         watchdogClosedListener := false
                         teardown := [.closeClient] }
              | .ok _ =>
                  let r := acceptLoop name events 0 []
                  some { result := none
                         logs := r.2
                         connCount := r.1
                         watchdogClosedListener := true
                         teardown := [.waitConns, .closeListener, .closeClient] }

/-- The three cases of the supervisor's `select`
(`cmd/main.go` lines 110-121). -/
inductive SelectCase where
  | errCase
  | ctxCase
  | doneCase
deriving Repr, DecidableEq

/-- What the supervisor observably does on its chosen `select` branch:
whether it called `cancel()` before waiting, whether it received on
`doneCh` (waited for all sessions) before returning, and the error it
returns. -/
structure SupervisorObs where
  cancelledScope : Bool
  waitedForAll : Bool
  result : Option String
deriving Repr, DecidableEq

/-- The `select` of `runExposeWithConfig` (`cmd/main.go` lines
110-121) as a function of the channel states when the statement runs:
`errQueue` is the content of the buffered error channel in send order,
`signalled` whether the signal handler has called `cancel()` (so
`ctx.Done()` is closed), `allDone` whether every session goroutine has
finished (so `doneCh` is closed).  A branch is enabled (`some`) iff
its channel is ready; the Go runtime picks pseudo-randomly among the
enabled branches, so every enabled branch is a possible outcome.  The
error branch receives the oldest buffered error, calls `cancel()`,
waits on `doneCh` and returns the error; the context branch waits on
`doneCh` and returns `nil`; the done branch returns `nil`. -/
def superviseSelect (errQueue : List String) (signalled allDone : Bool) :
    SelectCase → Option SupervisorObs
  | .errCase =>
      match errQueue with
      | [] => none
      | e :: _ => some { cancelledScope := true, waitedForAll := true, result := some e }
  | .ctxCase =>
      if signalled then
        some { cancelledScope := false, waitedForAll := true, result := none }
      else none
  | .doneCase =>
      if allDone then
        some { cancelledScope := false, waitedForAll := true, result := none }
      else none

/-- An example directory used in concrete scenarios. -/
def exampleDir : RelayDirectory :=
  ⟨[⟨"relayA", ["u1", "u2"]⟩, ⟨"relayB", ["u2", "u3"]⟩]⟩

/-! ## Lemmas about `BootstrapServers` -/

theorem appendURL_eq (servers : List String) (url : String) :
    appendURL servers url =
      if trimSpace url = "" then servers else insert1 servers (trimSpace url) := rfl

theorem appendURLs_eq (urls : List String) :
    ∀ servers : List String,
      appendURLs servers urls =
        ((urls.map trimSpace).filter (fun u => u ≠ "")).foldl insert1 servers := by
  induction urls with
  | nil => intro servers; rfl
  | cons url rest ih =>
      intro servers
      show appendURLs (appendURL servers url) rest = _
      rw [ih, appendURL_eq]
      by_cases h : trimSpace url = "" <;>
        simp [h, List.filter_cons]

theorem resolveLoop_eq (rd : RelayDirectory) (preferences : List String) :
    resolveLoop rd preferences = (urlStream rd preferences).foldl insert1 [] := by
  suffices h : ∀ (prefs : List String) (acc : List String),
      prefs.foldl
        (fun servers relayName =>
          let relayName := trimSpace relayName
          if relayName = "" then servers
          else
            match rd.lookup relayName with
            | none => servers
            | some relay => appendURLs servers relay.urls)
        acc = (urlStream rd prefs).foldl insert1 acc by
    exact h preferences []
  intro prefs
  induction prefs with
  | nil => intro acc; rfl
  | cons p rest ih =>
      intro acc
      rw [List.foldl_cons]
      show _ = (urlStream rd (p :: rest)).foldl insert1 acc
      have hstream : urlStream rd (p :: rest) = relayContribution rd p ++ urlStream rd rest := by
        simp [urlStream]
      rw [hstream, List.foldl_append, ← ih]
      congr 1
      show (if trimSpace p = "" then acc
            else
              match rd.lookup (trimSpace p) with
              | none => acc
              | some relay => appendURLs acc relay.urls) =
          (relayContribution rd p).foldl insert1 acc
      unfold relayContribution
      by_cases h : trimSpace p = ""
      · simp [h]
      · simp only [h, if_neg, ite_false]
        cases hl : rd.lookup (trimSpace p) with
        | none => simp
        | some relay => simp [appendURLs_eq]

theorem urlStream_cons (rd : RelayDirectory) (p : String) (rest : List String) :
    urlStream rd (p :: rest) = relayContribution rd p ++ urlStream rd rest := by
  simp [urlStream]

theorem urlStream_nil_of_unknown (rd : RelayDirectory) :
    ∀ prefs : List String, (∀ p ∈ prefs, rd.lookup (trimSpace p) = none) →
      urlStream rd prefs = [] := by
  intro prefs
  induction prefs with
  | nil => intro _; rfl
  | cons p rest ih =>
      intro hunknown
      have hc : relayContribution rd p = [] := by
        unfold relayContribution
        by_cases hb : trimSpace p = ""
        · simp [hb]
        · simp [hb, hunknown p (List.mem_cons_self p rest)]
      rw [urlStream_cons, hc,
        ih (fun q hq => hunknown q (List.mem_cons_of_mem p hq))]
      rfl

theorem insert1_nodup {acc : List String} (u : String) (h : acc.Nodup) :
    (insert1 acc u).Nodup := by
  unfold insert1
  split
  · exact h
  · next hu =>
      refine List.Nodup.append h (List.nodup_singleton u) ?_
      intro x hx hx1
      simp only [List.mem_singleton] at hx1
      exact hu (hx1 ▸ hx)

theorem foldl_insert1_nodup (l : List String) :
    ∀ acc : List String, acc.Nodup → (l.foldl insert1 acc).Nodup := by
  induction l with
  | nil => intro acc h; exact h
  | cons x rest ih => intro acc h; exact ih _ (insert1_nodup x h)

theorem mem_insert1 {u x : String} {acc : List String} (h : u ∈ insert1 acc x) :
    u ∈ acc ∨ u = x := by
  unfold insert1 at h
  split at h
  · exact Or.inl h
  · rcases List.mem_append.mp h with h1 | h1
    · exact Or.inl h1
    · exact Or.inr (List.mem_singleton.mp h1)

theorem mem_foldl_insert1 {u : String} (l : List String) :
    ∀ acc : List String, u ∈ l.foldl insert1 acc → u ∈ acc ∨ u ∈ l := by
  induction l with
  | nil => intro acc h; exact Or.inl h
  | cons x rest ih =>
      intro acc h
      rcases ih _ h with h1 | h1
      · rcases mem_insert1 h1 with h2 | h2
        · exact Or.inl h2
        · exact Or.inr (h2 ▸ List.mem_cons_self x rest)
      · exact Or.inr (List.mem_cons_of_mem x h1)

theorem bootstrapServers_ok_elim {rd : RelayDirectory} {prefs servers : List String}
    (h : bootstrapServers rd prefs = .ok servers) :
    servers = resolveLoop rd prefs ∧ prefs ≠ [] := by
  unfold bootstrapServers at h
  split at h
  · exact absurd h (by simp)
  · next hne =>
      simp only [] at h
      split at h
      · exact absurd h (by simp)
      · refine ⟨by injection h with h; exact h.symm, ?_⟩
        intro hnil
        exact hne (by simp [hnil])

/-! ## Claim theorems about the Relay Directory -/

/-- C1: For every preference list, `BootstrapServers` returns a URL
list with no duplicates, preserving first-seen encounter order across
relays and within each relay's URL list (it equals the stable
first-seen deduplication of the URL stream walked in encounter order);
in particular the directory `{relayA: [u1,u2], relayB: [u2,u3]}` with
preference `[relayA, relayB]` resolves to `[u1, u2, u3]`. -/
theorem bootstrapServers_nodup_firstSeen (rd : RelayDirectory)
    (prefs servers : List String) (h : bootstrapServers rd prefs = .ok servers) :
    servers.Nodup ∧ servers = stableDedup (urlStream rd prefs) ∧
    bootstrapServers exampleDir ["relayA", "relayB"] = .ok ["u1", "u2", "u3"] := by
  obtain ⟨hs, -⟩ := bootstrapServers_ok_elim h
  have heq : servers = stableDedup (urlStream rd prefs) := by
    rw [hs, resolveLoop_eq]; rfl
  refine ⟨?_, heq, by rfl⟩
  rw [heq]
  exact foldl_insert1_nodup _ [] List.nodup_nil

/-- Witness for C1 at the spec's concrete scenario. -/
theorem bootstrapServers_nodup_firstSeen_witness :
    (["u1", "u2", "u3"] : List String).Nodup ∧
    ["u1", "u2", "u3"] = stableDedup (urlStream exampleDir ["relayA", "relayB"]) ∧
    bootstrapServers exampleDir ["relayA", "relayB"] = .ok ["u1", "u2", "u3"] :=
  bootstrapServers_nodup_firstSeen exampleDir ["relayA", "relayB"] ["u1", "u2", "u3"] (by rfl)

/-- C4: Resolving an empty preference list fails with the
"empty preference list" error, checked first and independently of the
directory; resolving a non-empty list whose names are all unknown to
the directory (unknown names silently skipped) fails with the distinct
"no bootstrap servers resolved" error. -/
theorem bootstrapServers_error_distinction (rd : RelayDirectory) (prefs : List String)
    (hne : prefs ≠ [])
    (hunknown : ∀ p ∈ prefs, rd.lookup (trimSpace p) = none) :
    bootstrapServers rd [] = .error .emptyPreferenceList ∧
    bootstrapServers rd prefs = .error .noBootstrapServers ∧
    ResolveError.emptyPreferenceList ≠ ResolveError.noBootstrapServers := by
  refine ⟨rfl, ?_, by decide⟩
  have hloop : resolveLoop rd prefs = [] := by
    rw [resolveLoop_eq, urlStream_nil_of_unknown rd prefs hunknown]
    rfl
  unfold bootstrapServers
  rw [if_neg (fun hlen => hne (List.length_eq_zero.mp hlen))]
  simp [hloop]

/-- Witness for C4 at the spec's second concrete scenario (`relayX`
absent from the directory). -/
theorem bootstrapServers_error_distinction_witness :
    bootstrapServers exampleDir [] = .error .emptyPreferenceList ∧
    bootstrapServers exampleDir ["relayX"] = .error .noBootstrapServers ∧
    ResolveError.emptyPreferenceList ≠ ResolveError.noBootstrapServers :=
  bootstrapServers_error_distinction exampleDir ["relayX"] (by decide) (by decide)

/-- C9: `BootstrapServers` trims whitespace from each URL as well as
each preference name and skips URLs that are empty after trimming:
every URL in the output is nonempty and is the trimmed form of some
configured URL of a relay found under a trimmed preference name; a
relay whose URL list holds only whitespace strings contributes
nothing; and deduplication is keyed on the trimmed strings. -/
theorem bootstrapServers_trimmed_urls (rd : RelayDirectory) (prefs servers : List String)
    (h : bootstrapServers rd prefs = .ok servers) :
    (∀ u ∈ servers, u ≠ "" ∧ ∃ p ∈ prefs, ∃ relay,
        rd.lookup (trimSpace p) = some relay ∧ ∃ raw ∈ relay.urls, u = trimSpace raw) ∧
    bootstrapServers ⟨[⟨"r", ["  ", ""]⟩]⟩ ["r"] = .error .noBootstrapServers ∧
    bootstrapServers ⟨[⟨"a", [" u1"]⟩, ⟨"b", ["u1 "]⟩]⟩ ["a", "b"] = .ok ["u1"] := by
  refine ⟨?_, by rfl, by rfl⟩
  intro u hu
  obtain ⟨hs, -⟩ := bootstrapServers_ok_elim h
  rw [hs, resolveLoop_eq] at hu
  rcases mem_foldl_insert1 _ [] hu with h0 | h0
  · simp at h0
  · rcases List.mem_flatMap.mp h0 with ⟨p, hp, hcontrib⟩
    unfold relayContribution at hcontrib
    by_cases hb : trimSpace p = ""
    · simp [hb] at hcontrib
    · rw [if_neg hb] at hcontrib
      cases hl : rd.lookup (trimSpace p) with
      | none => rw [hl] at hcontrib; simp at hcontrib
      | some relay =>
          rw [hl] at hcontrib
          obtain ⟨hmap, hne'⟩ := List.mem_filter.mp hcontrib
          obtain ⟨raw, hraw, hraw2⟩ := List.mem_map.mp hmap
          exact ⟨by simpa using hne', p, hp, relay, hl, raw, hraw, hraw2.symm⟩

/-- Witness for C9 at the dedup-on-trimmed scenario. -/
theorem bootstrapServers_trimmed_urls_witness :
    (∀ u ∈ (["u1"] : List String), u ≠ "" ∧ ∃ p ∈ (["a", "b"] : List String), ∃ relay,
        RelayDirectory.lookup ⟨[⟨"a", [" u1"]⟩, ⟨"b", ["u1 "]⟩]⟩ (trimSpace p) = some relay ∧
        ∃ raw ∈ relay.urls, u = trimSpace raw) ∧
    bootstrapServers ⟨[⟨"r", ["  ", ""]⟩]⟩ ["r"] = .error .noBootstrapServers ∧
    bootstrapServers ⟨[⟨"a", [" u1"]⟩, ⟨"b", ["u1 "]⟩]⟩ ["a", "b"] = .ok ["u1"] :=
  bootstrapServers_trimmed_urls ⟨[⟨"a", [" u1"]⟩, ⟨"b", ["u1 "]⟩]⟩ ["a", "b"] ["u1"] (by rfl)

/-! ## Claim theorems about display-name synthesis -/

/-- C8: During Registering, a service whose configured name is blank
(empty after trimming) gets a display name synthesized from the first
8 characters of the lease id, and every session's display name is
non-empty. -/
theorem displayName_synthesized_when_blank (name leaseID : String)
    (hblank : trimSpace name = "") (hlen : 8 ≤ leaseID.length) :
    displayName name leaseID = some ("tunnel-" ++ leaseID.take 8) ∧
    (∀ n l d, displayName n l = some d → d ≠ "") := by
  constructor
  · unfold displayName
    rw [hblank]
    simp [hlen]
  · intro n l d hd
    unfold displayName at hd
    by_cases hb : trimSpace n = ""
    · rw [hb, if_pos rfl] at hd
      split at hd
      · injection hd with hd
        intro hempty
        rw [← hd] at hempty
        have hlen := congrArg String.length hempty
        rw [String.length_append] at hlen
        have h7 : ("tunnel-" : String).length = 7 := rfl
        have h0 : ("" : String).length = 0 := rfl
        rw [h7, h0] at hlen
        omega
      · exact absurd hd (by simp)
    · rw [if_neg hb] at hd
      injection hd with hd
      exact hd ▸ hb

/-- Witness for C8: a blank name with a 16-character lease id. -/
theorem displayName_synthesized_when_blank_witness :
    displayName "  " "0123456789abcdef" = some ("tunnel-" ++ String.take "0123456789abcdef" 8) ∧
    (∀ n l d, displayName n l = some d → d ≠ "") :=
  displayName_synthesized_when_blank "  " "0123456789abcdef" (by rfl) (by decide)

/-- C10: Synthesizing a display name slices the first 8 characters of
the lease id with no length guard: for a blank service name the
operation succeeds exactly when the lease id has length at least 8,
and for a shorter lease id the Go slice `leaseID[:8]` panics
(modelled as `none`). -/
theorem displayName_slice_unguarded (leaseID : String) (hshort : leaseID.length < 8) :
    displayName "" leaseID = none ∧
    (∀ l : String, 8 ≤ l.length → (displayName "" l).isSome = true) := by
  constructor
  · unfold displayName
    simp [Nat.not_le.mpr hshort, trimSpace]
  · intro l hl
    unfold displayName
    simp [hl, trimSpace]

/-- Witness for C10: a 3-character lease id panics; a 10-character one
succeeds. -/
theorem displayName_slice_unguarded_witness :
    displayName "" "abc" = none ∧
    (∀ l : String, 8 ≤ l.length → (displayName "" l).isSome = true) :=
  displayName_slice_unguarded "abc" (by decide)

/-! ## Claim theorems about the Connection Proxy -/

/-- C7: Failure to dial the local target is the only failure that
aborts before any bytes move: it is reported immediately as the
proxy's wrapped error with the relay connection closed and no copy
started; once both ends are open the proxy's error is whichever copy
finished first, and the second copy is awaited (its result discarded)
before returning. -/
theorem proxyConnection_error_source (localAddr e : String) (cancelFires : Bool)
    (firstCopy secondCopy : Option String) :
    (proxyConnection localAddr cancelFires (.error e) firstCopy secondCopy).copiesStarted
        = false ∧
    (proxyConnection localAddr cancelFires (.error e) firstCopy secondCopy).result =
      some ("failed to connect to local service " ++ localAddr ++ ": " ++ e) ∧
    1 ≤ (proxyConnection localAddr cancelFires (.error e) firstCopy secondCopy).relayCloses ∧
    (proxyConnection localAddr cancelFires (.ok ()) firstCopy secondCopy).copiesStarted
        = true ∧
    (proxyConnection localAddr cancelFires (.ok ()) firstCopy secondCopy).result = firstCopy ∧
    (proxyConnection localAddr cancelFires (.ok ()) firstCopy secondCopy).secondDrained
        = true := by
  refine ⟨rfl, rfl, ?_, rfl, rfl, rfl⟩
  exact Nat.le_refl 1

/-- C3-counterexample: on the plain success path (dial succeeds, no
cancellation, both copies end cleanly) the relay connection's `Close`
is invoked twice — once explicitly after the first copy finishes and
once by the deferred close — so the connections are not closed
"exactly once". -/
theorem proxyConnection_relay_closed_twice :
    (proxyConnection "localhost:4018" false (.ok ()) none none).relayCloses = 2 ∧
    ¬ (proxyConnection "localhost:4018" false (.ok ()) none none).relayCloses = 1 := by
  exact ⟨rfl, by decide⟩

/-- C3-amended: for every successfully opened proxy pair the proxy
returns the result of whichever copy finished first (closing either
side ends the whole proxy, the other copy being awaited), and on every
exit path both connections are closed at least once — the relay side
exactly twice on the plain path and three times under cancellation,
the local side once, or twice under cancellation. -/
theorem proxyConnection_closes_both (localAddr e : String) (cancelFires : Bool)
    (firstCopy secondCopy : Option String) :
    (proxyConnection localAddr cancelFires (.ok ()) firstCopy secondCopy).result
        = firstCopy ∧
    (proxyConnection localAddr cancelFires (.ok ()) firstCopy secondCopy).secondDrained
        = true ∧
    (proxyConnection localAddr cancelFires (.ok ()) firstCopy secondCopy).relayCloses
        = 2 + (if cancelFires then 1 else 0) ∧
    (proxyConnection localAddr cancelFires (.ok ()) firstCopy secondCopy).localCloses
        = 1 + (if cancelFires then 1 else 0) ∧
    1 ≤ (proxyConnection localAddr cancelFires (.ok ()) firstCopy secondCopy).localCloses ∧
    1 ≤ (proxyConnection localAddr cancelFires (.ok ()) firstCopy secondCopy).relayCloses ∧
    1 ≤ (proxyConnection localAddr cancelFires (.error e) firstCopy secondCopy).relayCloses := by
  refine ⟨rfl, rfl, rfl, rfl, Nat.le_add_right 1 _, ?_, Nat.le_refl 1⟩
  show 1 ≤ 2 + (if cancelFires then 1 else 0)
  omega

/-! ## Claim theorems about the Tunnel Supervisor -/

/-- C2-counterexample: when every session has finished and one of them
failed (its error sits buffered in the error channel) and no signal
fired, the supervisor's `select` has both the error branch and the
completion branch enabled; the completion branch is a possible choice
of the Go runtime and returns `nil`, so the supervisor does not always
return the first session error. -/
theorem superviseSelect_can_drop_error :
    superviseSelect ["session failed"] false true .doneCase =
      some { cancelledScope := false, waitedForAll := true, result := none } ∧
    superviseSelect ["session failed"] false true .errCase =
      some { cancelledScope := true, waitedForAll := true, result := some "session failed" } := by
  exact ⟨rfl, rfl⟩

/-- C2-amended: on every enabled branch the supervisor waits for all
sessions to finish before returning; whenever the error branch is
chosen it cancels the shared scope and returns the first session
error, and that branch is the only enabled one while sessions are
still running and no signal has fired; when no session error is
buffered (external cancellation or clean completion) the supervisor
returns `nil`.  When all sessions have already finished with a
buffered error, the completion branch is also enabled and returns
`nil`, so the first error is only guaranteed when the error branch is
picked. -/
theorem superviseSelect_first_error_policy (errQueue : List String)
    (signalled allDone : Bool) (pick : SelectCase) (obs : SupervisorObs)
    (h : superviseSelect errQueue signalled allDone pick = some obs) :
    obs.waitedForAll = true ∧
    (pick = .errCase → obs.cancelledScope = true ∧ obs.result = errQueue.head?) ∧
    (errQueue = [] → obs.result = none) ∧
    (allDone = false → signalled = false → pick = .errCase) := by
  cases pick with
  | errCase =>
      cases errQueue with
      | nil => exact absurd h (by simp [superviseSelect])
      | cons e rest =>
          simp only [superviseSelect] at h
          injection h with h
          subst h
          exact ⟨rfl, fun _ => ⟨rfl, rfl⟩, fun hq => by simp at hq, fun _ _ => rfl⟩
  | ctxCase =>
      simp only [superviseSelect] at h
      split at h
      · next hs =>
          injection h with h
          subst h
          exact ⟨rfl, fun hp => by simp at hp, fun _ => rfl,
            fun _ hsig => absurd hs (by simp [hsig])⟩
      · exact absurd h (by simp)
  | doneCase =>
      simp only [superviseSelect] at h
      split at h
      · next hd =>
          injection h with h
          subst h
          exact ⟨rfl, fun hp => by simp at hp, fun _ => rfl,
            fun hdone _ => absurd hd (by simp [hdone])⟩
      · exact absurd h (by simp)

/-- Witness for C2-amended: a single failed session observed by the
error branch while the other branches are disabled. -/
theorem superviseSelect_first_error_policy_witness :
    SupervisorObs.waitedForAll ⟨true, true, some "boom"⟩ = true ∧
    (SelectCase.errCase = .errCase →
      SupervisorObs.cancelledScope ⟨true, true, some "boom"⟩ = true ∧
      SupervisorObs.result ⟨true, true, some "boom"⟩ = (["boom"] : List String).head?) ∧
    ((["boom"] : List String) = [] →
      SupervisorObs.result ⟨true, true, some "boom"⟩ = none) ∧
    (false = false → false = false → SelectCase.errCase = .errCase) :=
  superviseSelect_first_error_policy ["boom"] false false .errCase
    ⟨true, true, some "boom"⟩ (by rfl)

/-! ## Lemmas about the session accept loop -/

theorem acceptLoop_count (name : String) :
    ∀ (events : List SessionEvent) (c : Nat) (logs : List String),
      (acceptLoop name events c logs).1 = c + events.countP SessionEvent.isAccepted := by
  intro events
  induction events with
  | nil => intro c logs; simp [acceptLoop]
  | cons ev rest ih =>
      intro c logs
      cases ev with
      | accepted pe =>
          cases pe with
          | none =>
              show (acceptLoop name rest (c + 1) logs).1 = _
              rw [ih]
              simp [SessionEvent.isAccepted, List.countP_cons]
              omega
          | some e =>
              show (acceptLoop name rest (c + 1) _).1 = _
              rw [ih]
              simp [SessionEvent.isAccepted, List.countP_cons]
              omega
      | acceptFailed e =>
          show (acceptLoop name rest c _).1 = _
          rw [ih]
          simp [SessionEvent.isAccepted, List.countP_cons]

theorem acceptLoop_logs_mono (name : String) :
    ∀ (events : List SessionEvent) (c : Nat) (logs : List String) (x : String),
      x ∈ logs → x ∈ (acceptLoop name events c logs).2 := by
  intro events
  induction events with
  | nil => intro c logs x hx; exact hx
  | cons ev rest ih =>
      intro c logs x hx
      cases ev with
      | accepted pe =>
          cases pe with
          | none => exact ih (c + 1) logs x hx
          | some e => exact ih (c + 1) _ x (List.mem_append_left _ hx)
      | acceptFailed e => exact ih c _ x (List.mem_append_left _ hx)

theorem acceptLoop_logs_of_acceptFailed (name : String) :
    ∀ (events : List SessionEvent) (c : Nat) (logs : List String) (e : String),
      SessionEvent.acceptFailed e ∈ events →
      ("service " ++ name ++ ": Failed to accept connection: " ++ e) ∈
        (acceptLoop name events c logs).2 := by
  intro events
  induction events with
  | nil => intro c logs e he; simp at he
  | cons ev rest ih =>
      intro c logs e he
      rcases List.mem_cons.mp he with h1 | h1
      · cases h1.symm
        exact acceptLoop_logs_mono name rest c _ _
          (List.mem_append_right _ (List.mem_singleton.mpr rfl))
      · cases ev with
        | accepted pe =>
            cases pe with
            | none => exact ih (c + 1) logs e h1
            | some pe => exact ih (c + 1) _ e h1
        | acceptFailed e2 => exact ih c _ e h1

theorem acceptLoop_logs_of_proxyError (name : String) :
    ∀ (events : List SessionEvent) (c : Nat) (logs : List String) (pe : String),
      SessionEvent.accepted (some pe) ∈ events →
      ("service " ++ name ++ ": Proxy error: " ++ pe) ∈
        (acceptLoop name events c logs).2 := by
  intro events
  induction events with
  | nil => intro c logs pe he; simp at he
  | cons ev rest ih =>
      intro c logs pe he
      rcases List.mem_cons.mp he with h1 | h1
      · cases h1.symm
        exact acceptLoop_logs_mono name rest (c + 1) _ _
          (List.mem_append_right _ (List.mem_singleton.mpr rfl))
      · cases ev with
        | accepted pe2 =>
            cases pe2 with
            | none => exact ih (c + 1) logs pe h1
            | some pe2 => exact ih (c + 1) _ pe h1
        | acceptFailed e2 => exact ih c _ pe h1

/-! ## Claim theorems about the Tunnel Session -/

/-- C5: Connection-level failures never cross the session boundary:
with resolution and registration succeeding, the session returns `nil`
whatever the accept loop sees; every accept failure with the context
still live is logged and the loop continues (all later events are
still processed and counted); every per-connection proxy error is
logged in its task without affecting the session result; and a
non-`nil` session result can only come from a connect or listen
(Registering) failure. -/
theorem session_error_boundary (rd : RelayDirectory) (svc : ServiceConfig)
    (leaseID dname : String) (bs : List String) (events : List SessionEvent)
    (hres : bootstrapServers rd svc.relayPreference = .ok bs)
    (hname : displayName svc.name leaseID = some dname) :
    ∃ r, runServiceTunnel rd svc leaseID (.ok ()) (.ok ()) events = some r ∧
      r.result = none ∧
      r.connCount = events.countP SessionEvent.isAccepted ∧
      (∀ e, SessionEvent.acceptFailed e ∈ events →
        ("service " ++ dname ++ ": Failed to accept connection: " ++ e) ∈ r.logs) ∧
      (∀ pe, SessionEvent.accepted (some pe) ∈ events →
        ("service " ++ dname ++ ": Proxy error: " ++ pe) ∈ r.logs) ∧
      (∀ (connect listen : Except String Unit) (r2 : SessionResult),
        runServiceTunnel rd svc leaseID connect listen events = some r2 →
        r2.result ≠ none →
        (∃ e, connect = .error e) ∨ (∃ e, listen = .error e)) := by
  have hrun : runServiceTunnel rd svc leaseID (.ok ()) (.ok ()) events =
      some { result := none
             logs := (acceptLoop dname events 0 []).2
             connCount := (acceptLoop dname events 0 []).1
             watchdogClosedListener := true
             teardown := [.waitConns, .closeListener, .closeClient] } := by
    simp only [runServiceTunnel, hres, hname]
  refine ⟨_, hrun, rfl, ?_, ?_, ?_, ?_⟩
  · simpa using acceptLoop_count dname events 0 []
  · intro e he
    exact acceptLoop_logs_of_acceptFailed dname events 0 [] e he
  · intro pe hpe
    exact acceptLoop_logs_of_proxyError dname events 0 [] pe hpe
  · intro connect listen r2 h2 hr2
    cases connect with
    | error e => exact Or.inl ⟨e, rfl⟩
    | ok u =>
        cases listen with
        | error e => exact Or.inr ⟨e, rfl⟩
        | ok v =>
            cases u
            cases v
            rw [hrun] at h2
            injection h2 with h2
            exact absurd (h2 ▸ rfl) hr2

/-- Witness for C5: a session over `exampleDir` whose accept loop sees
a failed accept, a connection with a proxy error and a clean
connection. -/
theorem session_error_boundary_witness :
    ∃ r, runServiceTunnel exampleDir ⟨"svc", ["relayA"], "localhost:4018", ["http/1.1"]⟩
        "0123456789abcdef" (.ok ()) (.ok ())
        [.acceptFailed "boom", .accepted (some "perr"), .accepted none] = some r ∧
      r.result = none ∧
      r.connCount = List.countP SessionEvent.isAccepted
        [.acceptFailed "boom", .accepted (some "perr"), .accepted none] ∧
      (∀ e, SessionEvent.acceptFailed e ∈
          ([.acceptFailed "boom", .accepted (some "perr"), .accepted none] :
            List SessionEvent) →
        ("service " ++ "svc" ++ ": Failed to accept connection: " ++ e) ∈ r.logs) ∧
      (∀ pe, SessionEvent.accepted (some pe) ∈
          ([.acceptFailed "boom", .accepted (some "perr"), .accepted none] :
            List SessionEvent) →
        ("service " ++ "svc" ++ ": Proxy error: " ++ pe) ∈ r.logs) ∧
      (∀ (connect listen : Except String Unit) (r2 : SessionResult),
        runServiceTunnel exampleDir ⟨"svc", ["relayA"], "localhost:4018", ["http/1.1"]⟩
          "0123456789abcdef" connect listen
          [.acceptFailed "boom", .accepted (some "perr"), .accepted none] = some r2 →
        r2.result ≠ none →
        (∃ e, connect = .error e) ∨ (∃ e, listen = .error e)) :=
  session_error_boundary exampleDir ⟨"svc", ["relayA"], "localhost:4018", ["http/1.1"]⟩
    "0123456789abcdef" "svc" ["u1", "u2"]
    [.acceptFailed "boom", .accepted (some "perr"), .accepted none] (by rfl) (by rfl)

/-- C6: Cancelling a session's context while its accept loop is
blocked makes the watchdog goroutine close the listener (unblocking
the pending accept), the loop exits and the session returns `nil`;
the listener is closed again by the deferred close (not leaked), and
the session's first teardown step after the loop is waiting for all
in-flight proxy tasks, before the listener and client are released. -/
theorem session_cancel_teardown (rd : RelayDirectory) (svc : ServiceConfig)
    (leaseID dname : String) (bs : List String) (events : List SessionEvent)
    (hres : bootstrapServers rd svc.relayPreference = .ok bs)
    (hname : displayName svc.name leaseID = some dname) :
    ∃ r, runServiceTunnel rd svc leaseID (.ok ()) (.ok ()) events = some r ∧
      r.result = none ∧
      r.watchdogClosedListener = true ∧
      TeardownStep.closeListener ∈ r.teardown ∧
      r.teardown = [.waitConns, .closeListener, .closeClient] ∧
      r.teardown.head? = some .waitConns := by
  have hrun : runServiceTunnel rd svc leaseID (.ok ()) (.ok ()) events =
      some { result := none
             logs := (acceptLoop dname events 0 []).2
             connCount := (acceptLoop dname events 0 []).1
             watchdogClosedListener := true
             teardown := [.waitConns, .closeListener, .closeClient] } := by
    simp only [runServiceTunnel, hres, hname]
  exact ⟨_, hrun, rfl, rfl, by simp, rfl, rfl⟩

/-- Witness for C6: cancellation with the accept loop blocked before
any connection arrived. -/
theorem session_cancel_teardown_witness :
    ∃ r, runServiceTunnel exampleDir ⟨"web", ["relayB"], "localhost:8080", ["h2"]⟩
        "fedcba9876543210" (.ok ()) (.ok ()) [] = some r ∧
      r.result = none ∧
      r.watchdogClosedListener = true ∧
      TeardownStep.closeListener ∈ r.teardown ∧
      r.teardown = [.waitConns, .closeListener, .closeClient] ∧
      r.teardown.head? = some .waitConns :=
  session_cancel_teardown exampleDir ⟨"web", ["relayB"], "localhost:8080", ["h2"]⟩
    "fedcba9876543210" "web" ["u2", "u3"] [] (by rfl) (by rfl)

end PortalTunnel
